import Mathlib

/-!
Verification of the data-filtering and derived-metric layer of the COVID-19
dashboard (`creating-dashboard.py`).

The script loads a cleaned CSV into a pandas DataFrame, lets the user pick a
country and a date range, filters and sorts the rows, and computes a latest
snapshot, a vaccination rate, a case-fatality series and optional 7-day moving
averages. We embed the rows as `Record`, a DataFrame as its row list plus the
derived columns added after loading, pandas missing values (NaN / NA) as
`Option ℚ = none`, and non-finite numpy float results as `PyFloat`.
-/

namespace CovidDashboard

/-- One row of the cleaned dataset. The `date` column is parsed to a datetime
(line 90); we embed dates as integers (days since an epoch), which preserves
the ordering and equality the script uses. A numeric observation that is NaN
in the CSV is embedded as `none`, mirroring `pd.notna`. -/
structure Record where
  location : String
  date : Int
  total_cases : Option ℚ
  total_deaths : Option ℚ
  new_cases : Option ℚ
  new_deaths : Option ℚ
  people_vaccinated : Option ℚ
  population : Option ℚ
  stringency_index : Option ℚ
  median_age : Option ℚ
  population_density : Option ℚ
  gdp_per_capita : Option ℚ
  human_development_index : Option ℚ
deriving DecidableEq, Repr

/-- A numpy float64 scalar at real-number precision: a finite rational, an
infinity, or NaN. numpy float division by zero emits a warning and yields
`inf` / `-inf` / `nan`; it does not raise. -/
inductive PyFloat where
  | val : ℚ → PyFloat
  | posInf : PyFloat
  | negInf : PyFloat
  | nan : PyFloat
deriving DecidableEq, Repr

/-- numpy float64 division (real-valued idealization: rationals stand for the
finite floats, so rounding and negative zero are not modelled; none of the
theorems below depend on them). -/
def pfDiv : PyFloat → PyFloat → PyFloat
  | .val a, .val b =>
      if b = 0 then (if 0 < a then .posInf else if a < 0 then .negInf else .nan)
      else .val (a / b)
  | .val _, .posInf => .val 0
  | .val _, .negInf => .val 0
  | .posInf, .val b => if 0 ≤ b then .posInf else .negInf
  | .negInf, .val b => if 0 ≤ b then .negInf else .posInf
  | _, _ => .nan

/-- numpy float64 multiplication (same idealization as `pfDiv`). -/
def pfMul : PyFloat → PyFloat → PyFloat
  | .val a, .val b => .val (a * b)
  | .posInf, .val b => if 0 < b then .posInf else if b < 0 then .negInf else .nan
  | .negInf, .val b => if 0 < b then .negInf else if b < 0 then .posInf else .nan
  | .val a, .posInf => if 0 < a then .posInf else if a < 0 then .negInf else .nan
  | .val a, .negInf => if 0 < a then .negInf else if a < 0 then .posInf else .nan
  | .posInf, .posInf => .posInf
  | .negInf, .negInf => .posInf
  | .posInf, .negInf => .negInf
  | .negInf, .posInf => .negInf
  | _, _ => .nan

/-- Insertion step of `sortByDate`: place the record behind every strictly
earlier element and in front of the first one not earlier. -/
def insertByDate (r : Record) : List Record → List Record
  | [] => [r]
  | x :: xs => if x.date < r.date then x :: insertByDate r xs else r :: x :: xs

/-- `sort_values` on the date column (line 107): sort the rows by date
ascending. The pandas default sort kind is quicksort, which specifies the
date order of the result but not the relative order of rows with equal
dates; an executable embedding has to fix one concrete tie order, and this
insertion sort fixes the original-order one. Every property proved below
about `filtered_df` is insensitive to that choice (emptiness, membership,
permutation, and the last element of whatever order was produced); no
theorem in this development asserts the tie order of the real sort. -/
def sortByDate : List Record → List Record
  | [] => []
  | x :: xs => insertByDate x (sortByDate xs)

/-- Lines 107-112: `filtered_df` built from the rows whose location matches the country,
sorted by date,
followed by the date-range restriction, applied only when the widget returned
exactly two bounds (`if len(date_range) == 2`). -/
def filtered_df (df : List Record) (country : String) (date_range : List Int) :
    List Record :=
  let base := sortByDate (df.filter (fun r => r.location == country))
  if date_range.length == 2 then
    base.filter (fun r => decide (date_range[0]! ≤ r.date) && decide (r.date ≤ date_range[1]!))
  else
    base

/-- Lines 115-116: `latest_data = filtered_df.iloc[-1]`, taken only when
`filtered_df` is non-empty; absent otherwise. -/
def snapshot (fd : List Record) : Option Record := fd.getLast?

-- Basic facts about the stable sort.

theorem perm_insertByDate (r : Record) (l : List Record) :
    (insertByDate r l).Perm (r :: l) := by
  induction l with
  | nil => simp [insertByDate]
  | cons x xs ih =>
    simp only [insertByDate]
    by_cases h : x.date < r.date
    · rw [if_pos h]
      exact (ih.cons x).trans (List.Perm.swap r x xs)
    · rw [if_neg h]

theorem perm_sortByDate (l : List Record) : (sortByDate l).Perm l := by
  induction l with
  | nil => simp [sortByDate]
  | cons x xs ih =>
    exact (perm_insertByDate x (sortByDate xs)).trans (ih.cons x)

theorem mem_insertByDate {a r : Record} {l : List Record}
    (h : a ∈ insertByDate r l) : a = r ∨ a ∈ l :=
  List.mem_cons.mp ((perm_insertByDate r l).mem_iff.mp h)

theorem sorted_insertByDate {r : Record} {l : List Record}
    (h : l.Pairwise (fun a b => a.date ≤ b.date)) :
    (insertByDate r l).Pairwise (fun a b => a.date ≤ b.date) := by
  induction l with
  | nil => simp [insertByDate]
  | cons x xs ih =>
    rcases List.pairwise_cons.mp h with ⟨hx, hxs⟩
    simp only [insertByDate]
    by_cases hlt : x.date < r.date
    · rw [if_pos hlt]
      refine List.pairwise_cons.mpr ⟨?_, ih hxs⟩
      intro b hb
      rcases mem_insertByDate hb with rfl | hb
      · exact le_of_lt hlt
      · exact hx b hb
    · rw [if_neg hlt]
      refine List.pairwise_cons.mpr ⟨?_, h⟩
      intro b hb
      rcases List.mem_cons.mp hb with rfl | hb
      · exact le_of_not_lt hlt
      · exact le_trans (le_of_not_lt hlt) (hx b hb)

theorem sorted_sortByDate (l : List Record) :
    (sortByDate l).Pairwise (fun a b => a.date ≤ b.date) := by
  induction l with
  | nil => simp [sortByDate]
  | cons x xs ih => exact sorted_insertByDate ih

/-- Lines 148-150: `vaccination_rate = 0`, overwritten with
the people-vaccinated value divided by the population, times 100,
whenever `pd.notna` holds for both values. There is no `population > 0`
check: a present zero population reaches the numpy division. -/
def vaccination_rate (latest_data : Record) : PyFloat :=
  match latest_data.people_vaccinated, latest_data.population with
  | some pv, some pop => pfMul (pfDiv (.val pv) (.val pop)) (.val 100)
  | _, _ => .val 0

/-- Line 253: `total_deaths / total_cases.replace(0, pd.NA) * 100` for one
row. A zero `total_cases` is replaced by NA before the division, so the
quotient is NA; a NaN in either operand propagates; any other present value
divides normally. Both NA and NaN are `none`. -/
def cfr (r : Record) : Option ℚ :=
  match r.total_deaths, r.total_cases with
  | some d, some c => if c = 0 then none else some (d / c * 100)
  | _, _ => none

/-- `Series.rolling(window=w).mean()` (lines 221-222): at index `i` the
window is the up-to-`w` trailing values; with the default
`min_periods = w`, the mean of the non-NaN values is produced only when at
least `w` of them are present, else NaN. -/
def rollingMean (w : Nat) (xs : List (Option ℚ)) : List (Option ℚ) :=
  (List.range xs.length).map (fun i =>
    if w ≤ (((xs.take (i + 1)).drop (i + 1 - w)).filterMap id).length then
      some ((((xs.take (i + 1)).drop (i + 1 - w)).filterMap id).sum /
        (((((xs.take (i + 1)).drop (i + 1 - w)).filterMap id).length : ℚ)))
    else none)

/-- A pandas DataFrame holding the filtered series: its rows, plus the
derived columns the script assigns into it after filtering. -/
structure DataFrame where
  rows : List Record
  extraCols : List (String × List (Option ℚ))
deriving DecidableEq, Repr

/-- Lines 220-222: when the moving-average checkbox is on and
`len(filtered_df) > 7`, the script assigns the two rolling-mean columns into
`filtered_df` itself by column assignment: an in-place
update of the filtered series. Otherwise the frame is untouched. -/
def applyMovingAvg (show_moving_avg : Bool) (fd : DataFrame) : DataFrame :=
  if show_moving_avg && decide (7 < fd.rows.length) then
    { fd with
      extraCols := fd.extraCols ++
        [("new_cases_ma", rollingMean 7 (fd.rows.map Record.new_cases)),
         ("new_deaths_ma", rollingMean 7 (fd.rows.map Record.new_deaths))] }
  else
    fd

/-- Lines 252-253: `filtered_df_copy = filtered_df.copy()` followed by the
assignment of the `cfr` column into the copy; the original frame is what the
assignment leaves alone. -/
def cfr_copy (fd : DataFrame) : DataFrame :=
  { fd with extraCols := fd.extraCols ++ [("cfr", fd.rows.map cfr)] }

/-- `latest_data.get(field, 0)` as used by the metric cards (lines 121-145):
the label always exists in the cleaned dataset schema (the chart code indexes
the same columns unconditionally), so the `0` default is never taken and a
missing (NaN) observation flows through and is formatted as `nan`. -/
def display_value (v : Option ℚ) : PyFloat :=
  match v with
  | some q => .val q
  | none => .nan

/-- The four metric cards of lines 118-156: total cases, total deaths, new
cases, vaccination rate. Each card is always rendered when the snapshot
exists; none is omitted. -/
def metric_cards (latest_data : Record) : List PyFloat :=
  [display_value latest_data.total_cases,
   display_value latest_data.total_deaths,
   display_value latest_data.new_cases,
   vaccination_rate latest_data]

/-- The values the rendering layer receives from one run of the script. -/
structure DashboardOutput where
  cards : List PyFloat
  filtered_final : DataFrame
  filtered_copy : DataFrame
  cfr_series : List (Option ℚ)
  vaccination_pie : Option (ℚ × ℚ)
  vaccination_gauge : PyFloat
deriving DecidableEq, Repr

/-- One top-to-bottom run of the script for a given dataset and selection.
`latest_data` and `vaccination_rate` are assigned only inside the
`if not filtered_df.empty` block (lines 115-156); the vaccination section at
line 286 and the gauge at line 312 read them unconditionally, so an empty
filtered series raises `NameError` there — embedded as `Except.error`. -/
def runDashboard (df : List Record) (country : String) (date_range : List Int)
    (show_moving_avg : Bool) : Except String DashboardOutput :=
  let fd := filtered_df df country date_range
  match snapshot fd with
  | some latest_data =>
      let fdMa := applyMovingAvg show_moving_avg { rows := fd, extraCols := [] }
      let copy := cfr_copy fdMa
      let pie : Option (ℚ × ℚ) :=
        match latest_data.people_vaccinated, latest_data.population with
        | some pv, some pop => some (pv, pop - pv)
        | _, _ => none
      Except.ok
        { cards := metric_cards latest_data
          filtered_final := fdMa
          filtered_copy := copy
          cfr_series := fdMa.rows.map cfr
          vaccination_pie := pie
          vaccination_gauge := vaccination_rate latest_data }
  | none =>
      Except.error "NameError: latest_data is not defined"

/-- An all-absent row used to build concrete instances. -/
def baseRec : Record :=
  { location := "US", date := 0, total_cases := none, total_deaths := none,
    new_cases := none, new_deaths := none, people_vaccinated := none,
    population := none, stringency_index := none, median_age := none,
    population_density := none, gdp_per_capita := none,
    human_development_index := none }

-- Supporting lemmas about `filterMap id` on option lists.

theorem length_filterMap_id_le (l : List (Option ℚ)) :
    (l.filterMap id).length ≤ l.length := by
  induction l with
  | nil => simp
  | cons x xs ih => cases x <;> simp [List.filterMap_cons] <;> omega

theorem length_filterMap_id_of_all {l : List (Option ℚ)}
    (h : l.all Option.isSome = true) : (l.filterMap id).length = l.length := by
  induction l with
  | nil => simp
  | cons x xs ih =>
    rcases List.all_cons .. ▸ h with h
    cases x with
    | none => simp at h
    | some q =>
      simp only [List.all_cons, Bool.and_eq_true] at h
      simp [List.filterMap_cons, ih h.2]

theorem length_filterMap_id_lt_of_not_all {l : List (Option ℚ)}
    (h : ¬ l.all Option.isSome = true) : (l.filterMap id).length < l.length := by
  induction l with
  | nil => simp at h
  | cons x xs ih =>
    cases x with
    | none =>
      simp only [List.filterMap_cons, List.length_cons]
      exact Nat.lt_succ_of_le (length_filterMap_id_le xs)
    | some q =>
      simp only [List.all_cons, Option.isSome_some, Bool.true_and] at h
      simp only [List.filterMap_cons, List.length_cons, id]
      exact Nat.succ_lt_succ (ih h)

theorem rollingMean_length (w : Nat) (xs : List (Option ℚ)) :
    (rollingMean w xs).length = xs.length := by
  simp [rollingMean]

/-- C3: for every series and 0-based index `i`, the 7-day rolling average is
defined exactly when `i + 1 ≥ 7` and all 7 values of the trailing window
`[i-6, i]` are present, in which case it is their arithmetic mean; for fewer
than 7 of history, or with any absent value in the window, it is undefined. -/
theorem rollingMean_defined_iff (xs : List (Option ℚ)) (i : Nat)
    (h : i < xs.length) :
    (rollingMean 7 xs).get ⟨i, by rw [rollingMean_length]; exact h⟩ =
      (if 7 ≤ i + 1 ∧ ((xs.take (i + 1)).drop (i + 1 - 7)).all Option.isSome then
        some ((((xs.take (i + 1)).drop (i + 1 - 7)).filterMap id).sum / 7)
      else
        none) := by
  have hwin : (((xs.take (i + 1)).drop (i + 1 - 7))).length = i + 1 - (i + 1 - 7) := by
    rw [List.length_drop, List.length_take]
    omega
  have hget :
      (rollingMean 7 xs).get ⟨i, by rw [rollingMean_length]; exact h⟩ =
        if 7 ≤ (((xs.take (i + 1)).drop (i + 1 - 7)).filterMap id).length then
          some ((((xs.take (i + 1)).drop (i + 1 - 7)).filterMap id).sum /
            (((((xs.take (i + 1)).drop (i + 1 - 7)).filterMap id).length : ℚ)))
        else none := by
    simp [rollingMean]
  rw [hget]
  by_cases hc : 7 ≤ i + 1 ∧ ((xs.take (i + 1)).drop (i + 1 - 7)).all Option.isSome
  · rcases hc with ⟨h7, hall⟩
    have hlen : (((xs.take (i + 1)).drop (i + 1 - 7)).filterMap id).length = 7 := by
      rw [length_filterMap_id_of_all hall, hwin]
      omega
    rw [if_pos (by omega), if_pos ⟨h7, hall⟩, hlen]
    norm_num
  · rw [if_neg hc]
    rcases not_and_or.mp hc with h7 | hall
    · have : (((xs.take (i + 1)).drop (i + 1 - 7)).filterMap id).length < 7 := by
        have := length_filterMap_id_le ((xs.take (i + 1)).drop (i + 1 - 7))
        omega
      rw [if_neg (by omega)]
    · have : (((xs.take (i + 1)).drop (i + 1 - 7)).filterMap id).length <
          (((xs.take (i + 1)).drop (i + 1 - 7))).length :=
        length_filterMap_id_lt_of_not_all hall
      rw [if_neg (by omega)]

/-- A concrete 7-value column used to witness the rolling-average theorem. -/
def sampleCol : List (Option ℚ) :=
  [some 1, some 2, some 3, some 4, some 5, some 6, some 7]

/-- C3 witness: the rolling mean of a fully-present 7-value column at index 6
is its arithmetic mean. -/
theorem rollingMean_defined_iff_witness :
    6 < sampleCol.length ∧
      (rollingMean 7 sampleCol).get ⟨6, by decide⟩ =
        (if 7 ≤ 6 + 1 ∧ ((sampleCol.take (6 + 1)).drop (6 + 1 - 7)).all Option.isSome then
          some ((((sampleCol.take (6 + 1)).drop (6 + 1 - 7)).filterMap id).sum / 7)
        else
          none) :=
  ⟨by decide, rollingMean_defined_iff sampleCol 6 (by decide)⟩

/-- C7: a date range whose start is after its end filters everything out:
the filtered series is empty and the snapshot is absent, with no error. -/
theorem filtered_df_start_after_end (df : List Record) (country : String)
    (s e : Int) (h : e < s) :
    filtered_df df country [s, e] = [] ∧
      snapshot (filtered_df df country [s, e]) = none := by
  have hfd : filtered_df df country [s, e] = [] := by
    have hb : ((([s, e] : List Int)).length == 2) = true := rfl
    simp only [filtered_df, hb, if_true]
    rw [List.filter_eq_nil_iff]
    intro r _
    have h0 : (([s, e] : List Int))[0]! = s := rfl
    have h1 : (([s, e] : List Int))[1]! = e := rfl
    rw [h0, h1]
    simp only [Bool.and_eq_true, decide_eq_true_eq, not_and]
    intro hs he
    omega
  exact ⟨hfd, by rw [hfd]; rfl⟩

/-- C7 witness: the concrete reversed range [31, 0] on a one-row dataset. -/
theorem filtered_df_start_after_end_witness :
    (0 : Int) < 31 ∧
      (filtered_df [baseRec] "France" [31, 0] = [] ∧
        snapshot (filtered_df [baseRec] "France" [31, 0]) = none) :=
  ⟨by decide, filtered_df_start_after_end [baseRec] "France" 31 0 (by decide)⟩

/-- C10: when the date widget supplies anything but exactly two bounds, no
date restriction is applied: the filtered series holds every record of the
selected entity, whatever its date. -/
theorem filtered_df_not_two_bounds (df : List Record) (country : String)
    (dr : List Int) (h : dr.length ≠ 2) :
    (filtered_df df country dr).Perm
      (df.filter (fun r => r.location == country)) := by
  have hb : (dr.length == 2) = false := by simpa using h
  simp only [filtered_df, hb, Bool.false_eq_true, if_false]
  exact perm_sortByDate _

/-- A three-row dataset over two entities used in concrete witnesses. -/
def usRec1 : Record := baseRec

/-- Second entity row: same country, a later date. -/
def usRec2 : Record := { baseRec with date := 1 }

/-- A row of another entity interleaved between the two above. -/
def frRec : Record := { baseRec with location := "France", date := 59 }

/-- C10 witness: a single start bound leaves all entity rows in, regardless
of their dates. -/
theorem filtered_df_not_two_bounds_witness :
    (([3] : List Int)).length ≠ 2 ∧
      (filtered_df [usRec1, frRec, usRec2] "US" [3]).Perm
        ([usRec1, frRec, usRec2].filter (fun r => r.location == "US")) :=
  ⟨by decide, filtered_df_not_two_bounds [usRec1, frRec, usRec2] "US" [3] (by decide)⟩

/-- C1 counterexample: with a present people_vaccinated = 500 and a present
population = 0 the script computes 500 / 0 × 100 = +inf and shows it, and
with people_vaccinated absent it shows 0 — in neither case an undefined
result. -/
theorem vaccination_rate_cx :
    vaccination_rate
        { baseRec with people_vaccinated := some 500, population := some 0 } =
        PyFloat.posInf ∧
      vaccination_rate
          { baseRec with people_vaccinated := none, population := some 1000 } =
        PyFloat.val 0 ∧
      PyFloat.posInf ≠ PyFloat.val 0 := by
  refine ⟨by decide, by decide, by decide⟩

/-- C1 amended: the vaccination rate is people_vaccinated / population × 100
whenever both values are present — a present population of 0 with positive
people_vaccinated gives +inf through the numpy division, not an error — and
it is 0 (not undefined) whenever either value is absent. -/
theorem vaccination_rate_spec (r : Record) :
    (∀ pv pop : ℚ, r.people_vaccinated = some pv → r.population = some pop →
        pop ≠ 0 → vaccination_rate r = PyFloat.val (pv / pop * 100)) ∧
      (∀ pv : ℚ, r.people_vaccinated = some pv → r.population = some 0 →
        0 < pv → vaccination_rate r = PyFloat.posInf) ∧
      (r.people_vaccinated = none ∨ r.population = none →
        vaccination_rate r = PyFloat.val 0) := by
  refine ⟨?_, ?_, ?_⟩
  · intro pv pop hpv hpop hne
    simp [vaccination_rate, hpv, hpop, pfDiv, pfMul, hne]
  · intro pv hpv hpop hpos
    have h1 : ¬ (pv < 0) := by linarith
    simp [vaccination_rate, hpv, hpop, pfDiv, pfMul, hpos, h1]
  · rintro (hn | hn)
    · simp [vaccination_rate, hn]
    · cases hpv : r.people_vaccinated <;> simp [vaccination_rate, hn, hpv]

/-- C1 witness: a present 50-of-200 vaccination gives 25 percent. -/
theorem vaccination_rate_spec_witness :
    vaccination_rate
        { baseRec with people_vaccinated := some 50, population := some 200 } =
      PyFloat.val (50 / 200 * 100) :=
  (vaccination_rate_spec _).1 50 200 rfl rfl (by norm_num)

/-- C2 (code bug): a selection whose range misses every date of the selected
entity leaves `filtered_df` empty; `latest_data` is then never assigned, and
line 286 reads it — the run aborts with NameError instead of completing. -/
theorem run_empty_filter_name_error :
    runDashboard [usRec1, frRec] "France" [0, 30] false =
      Except.error "NameError: latest_data is not defined" := by
  rfl

/-- C4 counterexample: a present negative total_cases survives
`replace(0, pd.NA)`, so the CFR is the defined value −100 even though
total_cases is not positive. -/
theorem cfr_cx :
    cfr { baseRec with total_deaths := some 1, total_cases := some (-1) } =
        some (-100) ∧
      ¬ (0 : ℚ) < -1 := by
  refine ⟨by norm_num [cfr, baseRec], by norm_num⟩

/-- C4 amended: the case-fatality ratio is total_deaths / total_cases × 100,
defined exactly when both values are present and total_cases ≠ 0 (for the
non-negative counts of real data this coincides with total_cases > 0); a
present total_cases of 0 is replaced by NA before the division, so the result
is undefined and no division by zero happens, and an absent operand also
gives undefined. -/
theorem cfr_spec (r : Record) :
    (∀ d c : ℚ, r.total_deaths = some d → r.total_cases = some c → c ≠ 0 →
        cfr r = some (d / c * 100)) ∧
      (∀ d : ℚ, r.total_deaths = some d → r.total_cases = some 0 →
        cfr r = none) ∧
      (r.total_deaths = none ∨ r.total_cases = none → cfr r = none) := by
  refine ⟨?_, ?_, ?_⟩
  · intro d c hd hc hne
    simp [cfr, hd, hc, hne]
  · intro d hd hc
    simp [cfr, hd, hc]
  · rintro (hn | hn)
    · simp [cfr, hn]
    · cases hd : r.total_deaths <;> simp [cfr, hn, hd]

/-- C4 witness: 3 deaths over 150 cases give a CFR of 2 percent. -/
theorem cfr_spec_witness :
    cfr { baseRec with total_deaths := some 3, total_cases := some 150 } =
      some (3 / 150 * 100) :=
  (cfr_spec _).1 3 150 rfl rfl (by norm_num)

/-- C8 counterexample: a snapshot whose total_cases is missing renders its
card as NaN — the card is still one of the four and its value is neither
zero nor omitted. -/
theorem metric_cards_cx :
    metric_cards { baseRec with total_deaths := some 5, new_cases := some 2 } =
        [PyFloat.nan, PyFloat.val 5, PyFloat.val 2, PyFloat.val 0] ∧
      PyFloat.nan ≠ PyFloat.val 0 := by
  refine ⟨by decide, by decide⟩

/-- C8 amended: the snapshot of a non-empty filtered series is its last
record and the snapshot of an empty one is absent; a missing observation in
the snapshot flows through `Series.get` as NaN and is rendered as NaN (the
vaccination rate alone falls back to 0), and the computation never crashes
on it. -/
theorem snapshot_spec (fd : List Record) :
    (fd = [] → snapshot fd = none) ∧
      (∀ h : fd ≠ [], snapshot fd = some (fd.getLast h)) ∧
      (∀ r : Record, r.total_cases = none →
        display_value r.total_cases = PyFloat.nan) ∧
      (∀ r : Record, ∀ q : ℚ, r.total_cases = some q →
        display_value r.total_cases = PyFloat.val q) := by
  refine ⟨?_, ?_, ?_, ?_⟩
  · intro h
    rw [h]
    rfl
  · intro h
    exact List.getLast?_eq_getLast fd h
  · intro r h
    simp [display_value, h]
  · intro r q h
    simp [display_value, h]

/-- C8 witness: the snapshot of a two-row series is its second row. -/
theorem snapshot_spec_witness :
    snapshot [usRec1, usRec2] =
      some ([usRec1, usRec2].getLast (by simp)) :=
  (snapshot_spec [usRec1, usRec2]).2.1 (by simp)

/-- A row carrying only a date and a new-case count, for the moving-average
instances. -/
def maRec (d : Int) (nc : ℚ) : Record :=
  { baseRec with date := d, new_cases := some nc }

/-- An eight-row filtered frame, long enough for the moving-average branch. -/
def maFrame : DataFrame :=
  { rows := [maRec 0 1, maRec 1 2, maRec 2 3, maRec 3 4, maRec 4 5, maRec 5 6,
      maRec 6 7, maRec 7 8],
    extraCols := [] }

/-- C9 counterexample: enabling the moving averages on an eight-row filtered
series changes the series itself — the script assigns the two rolling-mean
columns into `filtered_df` in place, so the frame after the step differs
from the frame before it. -/
theorem applyMovingAvg_mutates : applyMovingAvg true maFrame ≠ maFrame := by
  decide

/-- C9 amended: every derived output is recomputed fresh from the inputs of
the run; the CFR is written only into a copy, so the filtered series carries
no cfr column; but the moving-average step appends its two columns to the
filtered series in place (leaving the rows and the input dataset unchanged)
whenever the checkbox is on and the series has more than 7 rows. -/
theorem derived_computation_spec :
    (∀ fd : DataFrame, applyMovingAvg false fd = fd) ∧
      (∀ fd : DataFrame, ¬ 7 < fd.rows.length → applyMovingAvg true fd = fd) ∧
      (∀ fd : DataFrame, 7 < fd.rows.length →
        (applyMovingAvg true fd).rows = fd.rows ∧
          (applyMovingAvg true fd).extraCols = fd.extraCols ++
            [("new_cases_ma", rollingMean 7 (fd.rows.map Record.new_cases)),
             ("new_deaths_ma", rollingMean 7 (fd.rows.map Record.new_deaths))]) ∧
      (∀ df : List Record, ∀ country : String, ∀ dr : List Int, ∀ sm : Bool,
        ∀ out : DashboardOutput, runDashboard df country dr sm = Except.ok out →
          "cfr" ∉ out.filtered_final.extraCols.map Prod.fst ∧
            out.filtered_copy = cfr_copy out.filtered_final) := by
  refine ⟨?_, ?_, ?_, ?_⟩
  · intro fd
    simp [applyMovingAvg]
  · intro fd h
    simp [applyMovingAvg, h]
  · intro fd h
    simp [applyMovingAvg, h]
  · intro df country dr sm out hrun
    simp only [runDashboard] at hrun
    cases hsnap : snapshot (filtered_df df country dr) with
    | none =>
      rw [hsnap] at hrun
      simp at hrun
    | some latest =>
      rw [hsnap] at hrun
      simp only [Except.ok.injEq] at hrun
      subst hrun
      refine ⟨?_, rfl⟩
      simp only [applyMovingAvg]
      by_cases hma : (sm && decide (7 < (filtered_df df country dr).length)) = true
      · simp only [hma, if_true, List.nil_append, List.map_cons, List.map_nil]
        decide
      · simp only [Bool.not_eq_true] at hma
        simp [hma]

/-- C9 witness: with the checkbox off on a short frame nothing changes. -/
theorem derived_computation_spec_witness :
    applyMovingAvg true { rows := [baseRec], extraCols := [] } =
      { rows := [baseRec], extraCols := [] } :=
  derived_computation_spec.2.1 { rows := [baseRec], extraCols := [] } (by decide)

end CovidDashboard
